import Mathlib

/-!
Verification development for the expenses-tracker narration pipeline.

Shallow embedding of the two core modules:
  * `backend/SRC/refined_categories.py` (rule classifier `RefinedCategorizer`)
  * `backend/SRC/pii_sanitizer.py` (PII sanitizer `PIISanitizer`)

Conventions of the embedding:
  * Python strings are `String` (all data involved is ASCII).
  * Amounts are modeled as `Int` (the Python code only compares `amount > 0`).
  * Python dicts that are iterated in insertion order are association lists.
  * `merchant_database.json` is absent from the repository, so the module-level
    `MERCHANT_LOOKUP` / `KNOWN_MERCHANT_NAMES` are empty at runtime; the
    classifier is parameterized over this table (`CatState.mdb`), with `[]` as
    the state the shipped repository actually runs with.
  * The restricted regex dialect used by the category tables is interpreted by
    a small fuel-indexed matcher (`reMatchF`); each Python pattern string is
    compiled, construct by construct, into a `List RAtom`.
  * Python exceptions that the claims talk about are made explicit with
    `Except`; everything else in the two modules is total on string inputs.
-/

/-! ## String and list helpers mirroring Python primitives -/

/-- Python `str.lower()` (ASCII data). Implemented on the char list so that
the kernel can evaluate it (core `String.toLower` is defined through
position arithmetic that does not reduce definitionally). -/
def pyLower (s : String) : String := String.mk (s.data.map Char.toLower)

/-- Python `str.upper()` (ASCII data). -/
def pyUpper (s : String) : String := String.mk (s.data.map Char.toUpper)

/-- Python `str.strip()`: drop leading and trailing whitespace. -/
def pyStrip (s : String) : String :=
  String.mk (((s.data.dropWhile Char.isWhitespace).reverse.dropWhile Char.isWhitespace).reverse)

/-- Bool test: `needle` occurs as a contiguous sublist of `hay`
(Python `needle in hay` for strings, on the char level). -/
def listIsInfix (needle : List Char) : List Char → Bool
  | [] => needle.isEmpty
  | c :: cs => needle.isPrefixOf (c :: cs) || listIsInfix needle cs

/-- Python `needle in hay` for strings. -/
def strContains (hay needle : String) : Bool :=
  listIsInfix needle.data hay.data

/-- Worker for `pySplitWs`: `acc` holds the current word reversed. -/
def splitWsAux : List Char → List Char → List String
  | [], acc => if acc.isEmpty then [] else [String.mk acc.reverse]
  | c :: cs, acc =>
    if c.isWhitespace then
      if acc.isEmpty then splitWsAux cs []
      else String.mk acc.reverse :: splitWsAux cs []
    else splitWsAux cs (c :: acc)

/-- Python `str.split()` with no argument: split on whitespace runs,
dropping empty pieces. -/
def pySplitWs (s : String) : List String :=
  splitWsAux s.data []

/-- Worker for `pySplitOn` (fuel-indexed; every step consumes one char of
the remaining input, and the separator is nonempty at all call sites). -/
def splitOnAuxL (sep : List Char) : Nat → List Char → List Char → List (List Char)
  | 0, acc, rest => [acc.reverse ++ rest]
  | _ + 1, acc, [] => [acc.reverse]
  | f + 1, acc, c :: cs =>
    if sep.isPrefixOf (c :: cs) then
      acc.reverse :: splitOnAuxL sep f [] ((c :: cs).drop sep.length)
    else splitOnAuxL sep f (c :: acc) cs

/-- Python `str.split(sep)` for a nonempty separator: leftmost,
non-overlapping, keeping empty pieces. -/
def pySplitOn (s sep : String) : List String :=
  (splitOnAuxL sep.data (s.data.length + 1) [] s.data).map String.mk

/-- Python `str.isdigit()` (ASCII): nonempty and all digits. -/
def pyIsDigit (s : String) : Bool :=
  !s.isEmpty && s.data.all Char.isDigit

/-- Python `str.isupper()` (ASCII): has a cased char and no lowercase one. -/
def pyIsUpper (l : List Char) : Bool :=
  l.any Char.isAlpha && !l.any Char.isLower

/-- Last `n` characters (Python `s[-n:]` for `0 < n ≤ len`). -/
def lastN (n : Nat) (s : String) : String :=
  String.mk (s.data.drop (s.data.length - n))

/-- First `n` characters (Python `s[:n]`). -/
def takeN (n : Nat) (s : String) : String :=
  String.mk (s.data.take n)

/-- Python `hay.replace(old, new, 1)`: replace the leftmost occurrence. -/
def replaceFirstL (hay old new : List Char) : List Char :=
  match hay with
  | [] => []
  | c :: cs =>
    if old.isPrefixOf (c :: cs) then new ++ (c :: cs).drop old.length
    else c :: replaceFirstL cs old new

/-- String version of `replaceFirstL`. -/
def strReplaceFirst (hay old new : String) : String :=
  String.mk (replaceFirstL hay.data old.data new.data)

/-- Python `hay.replace(old, new)`: replace all (non-overlapping, leftmost)
occurrences.  Fuel-indexed (each step consumes at least one char of `hay`
because all call sites pass a nonempty `old`). -/
def replaceAllL : Nat → List Char → List Char → List Char → List Char
  | 0, hay, _, _ => hay
  | _ + 1, [], _, _ => []
  | f + 1, c :: cs, old, new =>
    if old.isPrefixOf (c :: cs) then new ++ replaceAllL f ((c :: cs).drop old.length) old new
    else c :: replaceAllL f cs old new

/-- String version of `replaceAllL` with sufficient fuel. -/
def pyReplace (hay old new : String) : String :=
  String.mk (replaceAllL (hay.data.length + 1) hay.data old.data new.data)

/-- Association-list lookup (Python `d[k]` / `k in d` on a dict, string keys). -/
def alookup {V : Type} (l : List (String × V)) (k : String) : Option V :=
  (l.find? (fun kv => kv.1 == k)).map (fun kv => kv.2)

/-- Python dict assignment `d[k] = v`: overwrite in place if the key exists
(keeping its position), else append (insertion order). -/
def dictInsert {V : Type} (l : List (String × V)) (k : String) (v : V) : List (String × V) :=
  if l.any (fun kv => kv.1 == k) then
    l.map (fun kv => if kv.1 == k then (k, v) else kv)
  else l ++ [(k, v)]

/-- Python `max(words, key=len)` (first maximal element), with the default
used when `words` is empty. -/
def pyMaxByLenGo (acc : String) : List String → String
  | [] => acc
  | x :: xs => pyMaxByLenGo (if x.length > acc.length then x else acc) xs

/-- `max(words, key=len) if words else dflt`. -/
def pyMaxByLen (l : List String) (dflt : String) : String :=
  match l with
  | [] => dflt
  | w :: ws => pyMaxByLenGo w ws

/-! ## Regex dialect

The category tables and the sanitizer only use a small regex dialect:
literals, `.*`, `\s*`, `\b`, `\.?,` alternation groups `(a|b|…)` and the one
negative lookahead `(?!.*prime)`.  Patterns always begin and end with `.*`,
so `re.search` on them coincides with a full match of the atom list. -/

/-- Python `\w` (ASCII inputs): letters, digits, underscore. -/
def wordC (c : Char) : Bool := c.isAlphanum || c == '_'

/-- `\b` between an optional previous char and an optional next char. -/
def bndOk : Option Char → Option Char → Bool
  | none, none => false
  | none, some c => wordC c
  | some c, none => wordC c
  | some a, some b => wordC a != wordC b

/-- One compiled regex atom. -/
inductive RAtom where
  | lit : String → RAtom
  | gap : RAtom
  | ws : RAtom
  | bnd : RAtom
  | optChr : Char → RAtom
  | alts : List String → RAtom
  | nla : String → RAtom
deriving Repr

/-- Last char of `t` if nonempty, else the previous context char. -/
def lastOr (t : List Char) (prev : Option Char) : Option Char :=
  match t.getLast? with
  | some c => some c
  | none => prev

/-- Backtracking matcher for an atom list against a whole char list, with the
char preceding the current position as context for `\b`.  Fuel-indexed: every
step shrinks the atom list or (keeping the atoms) the input, so
`atoms.length + s.length + 2` fuel is always enough. -/
def reMatchF : Nat → Option Char → List RAtom → List Char → Bool
  | 0, _, _, _ => false
  | _ + 1, _, [], s => s.isEmpty
  | f + 1, prev, a :: rest, s =>
    match a with
    | .lit t =>
      t.data.isPrefixOf s && reMatchF f (lastOr t.data prev) rest (s.drop t.data.length)
    | .gap =>
      reMatchF f prev rest s ||
        (match s with
         | [] => false
         | c :: cs => reMatchF f (some c) (a :: rest) cs)
    | .ws =>
      reMatchF f prev rest s ||
        (match s with
         | [] => false
         | c :: cs => c.isWhitespace && reMatchF f (some c) (a :: rest) cs)
    | .bnd => bndOk prev s.head? && reMatchF f prev rest s
    | .optChr c =>
      reMatchF f prev rest s ||
        (match s with
         | [] => false
         | d :: ds => c == d && reMatchF f (some d) rest ds)
    | .alts ts =>
      ts.any (fun t => t.data.isPrefixOf s && reMatchF f (lastOr t.data prev) rest (s.drop t.data.length))
    | .nla t => !listIsInfix t.data s && reMatchF f prev rest s

/-- `re.search(pattern, s)` for the dialect (patterns start and end with `.*`). -/
def reSearch (atoms : List RAtom) (s : String) : Bool :=
  reMatchF (atoms.length + s.data.length + 2) none atoms s.data

/-- `re.search(r'\b' + re.escape(needle) + r'\b', hay)`: `needle` occurs with a
word boundary on both sides.  `prev` is the char before the current position. -/
def wbSearchAux (needle : List Char) : Option Char → List Char → Bool
  | prev, s =>
    (needle.isPrefixOf s && bndOk prev needle.head? &&
       bndOk needle.getLast? ((s.drop needle.length).head?)) ||
    (match s with
     | [] => false
     | c :: cs => wbSearchAux needle (some c) cs)

/-- Whole-word search of `needle` inside `hay`. -/
def wordBoundarySearch (needle hay : String) : Bool :=
  wbSearchAux needle.data none hay.data

/-! ## Data tables of `refined_categories.py`

Transcribed from the module-level literals `REFINED_CATEGORIES`,
`KNOWN_MERCHANTS`, `COMMON_INDIAN_FIRST_NAMES` and `BUSINESS_SUFFIXES`
(`icon`/`color`/`description` fields and the never-read `is_transfer` flags
are dropped; each regex string is compiled into its `List RAtom`). -/

/-- A subcategory: keyword list and compiled pattern list, in declared order. -/
structure SubcatDef where
  name : String
  keywords : List String
  pats : List (List RAtom)
deriving Repr

/-- A category with its priority rank and ordered subcategories. -/
structure CatDef where
  name : String
  priority : Nat
  subcats : List SubcatDef
deriving Repr

def refinedCategories : List CatDef := [
  { name := "Income", priority := 1, subcats := [
    { name := "Salary",
      keywords := ["salary", "payroll", "wages", "monthly pay", "neft cr"],
      pats := [[.gap, .lit "salary", .gap],
      [.gap, .lit "payroll", .gap]] },
    { name := "Interest",
      keywords := ["interest", "int.pd", "int pd", "interest credit"],
      pats := [[.gap, .lit "interest", .gap, .lit "cr", .gap],
      [.gap, .lit "int", .optChr '.', .lit "pd", .gap]] },
    { name := "Dividends",
      keywords := ["dividend", "div", "payout"],
      pats := [[.gap, .lit "dividend", .gap]] },
    { name := "Refunds",
      keywords := ["refund", "cashback", "reversal", "credit back", "returned"],
      pats := [[.gap, .lit "refund", .gap],
      [.gap, .lit "reversal", .gap]] },
    { name := "Other Income",
      keywords := [],
      pats := [] }] },
  { name := "Investments", priority := 2, subcats := [
    { name := "Stocks & Trading",
      keywords := ["zerodha", "upstox", "groww", "angel broking", "angel one", "sharekhan", "iifl", "kotak securities", "hdfc securities", "icici direct", "axis direct", "motilal", "sharekhan", "5paisa", "alice blue", "fyers", "trading", "demat", "brokerage", "nse", "bse", "sensex", "nifty", "stocks", "razorpay", "razpbse", "clearing corp"],
      pats := [[.gap, .lit "zerodha", .gap],
      [.gap, .lit "groww", .gap],
      [.gap, .lit "upstox", .gap],
      [.gap, .lit "trading", .gap],
      [.gap, .lit "demat", .gap],
      [.gap, .lit "brokerage", .gap],
      [.gap, .lit "razorpay", .gap, .lit "securities", .gap]] },
    { name := "Mutual Funds & SIP",
      keywords := ["mutual fund", "sip", "systematic investment", "amc", "hdfc amc", "icici pru", "sbi mf", "axis mf", "kotak mf", "nippon", "franklin", "mirae", "parag parikh", "ppfas", "dsp", "tata mf", "uti mf", "aditya birla", "elss", "equity fund", "debt fund", "liquid fund", "balanced fund", "fund house", "nav", "hybrid fund"],
      pats := [[.gap, .lit "mutual", .gap, .lit "fund", .gap],
      [.gap, .bnd, .lit "sip", .bnd, .gap],
      [.gap, .lit "amc", .gap],
      [.gap, .lit "systematic", .gap, .lit "invest", .gap]] },
    { name := "Gold & Jewelry",
      keywords := ["mmtc gold", "digital gold", "gold etf", "sovereign gold", "gold bonds", "sgb", "bullion", "precious metal", "jewellers", "jewellery", "jewelry shop", "gold shop"],
      pats := [[.gap, .lit "jewellers", .gap],
      [.gap, .lit "jewellery", .gap],
      [.gap, .lit "gold", .ws, .alts ["shop", "store", "house", "palace"], .gap],
      [.gap, .bnd, .lit "gold", .bnd, .gap, .bnd, .alts ["etf", "bond", "sgb", "mmtc", "sovereign"], .bnd, .gap]] },
    { name := "Fixed Deposits",
      keywords := ["fixed deposit", "fd", "term deposit", "fd booking", "fd renewal", "fd placement"],
      pats := [[.gap, .lit "fixed", .gap, .lit "deposit", .gap],
      [.gap, .bnd, .lit "fd", .bnd, .gap, .lit "booking", .gap]] },
    { name := "Recurring Deposits",
      keywords := ["recurring deposit", "rd", "rd installment"],
      pats := [[.gap, .lit "recurring", .gap, .lit "deposit", .gap],
      [.gap, .bnd, .lit "rd", .bnd, .gap, .lit "install", .gap]] },
    { name := "PPF & NPS",
      keywords := ["ppf", "public provident", "nps", "national pension", "epf", "pf contribution", "provident fund"],
      pats := [[.gap, .bnd, .lit "ppf", .bnd, .gap],
      [.gap, .bnd, .lit "nps", .bnd, .gap],
      [.gap, .lit "provident", .gap, .lit "fund", .gap]] }] },
  { name := "Insurance", priority := 3, subcats := [
    { name := "Life Insurance",
      keywords := ["lic", "life insurance", "lic of india", "lic premium", "max life", "hdfc life", "icici pru life", "sbi life", "bajaj allianz life", "tata aia", "kotak life", "endowment", "money back", "whole life", "ulip"],
      pats := [[.gap, .bnd, .lit "lic", .bnd, .gap],
      [.gap, .lit "life", .gap, .lit "insurance", .gap],
      [.gap, .lit "lic", .gap, .lit "premium", .gap]] },
    { name := "Health Insurance",
      keywords := ["health insurance", "mediclaim", "medical insurance", "star health", "max bupa", "care health", "niva bupa", "aditya birla health", "hdfc ergo health", "icici lombard health", "family floater", "health policy"],
      pats := [[.gap, .lit "health", .gap, .lit "insurance", .gap],
      [.gap, .lit "mediclaim", .gap]] },
    { name := "Vehicle Insurance",
      keywords := ["car insurance", "motor insurance", "vehicle insurance", "bike insurance", "two wheeler insurance", "four wheeler", "comprehensive insurance", "third party", "own damage", "acko", "digit insurance", "hdfc ergo motor", "icici lombard motor"],
      pats := [[.gap, .lit "car", .gap, .lit "insurance", .gap],
      [.gap, .lit "motor", .gap, .lit "insurance", .gap],
      [.gap, .lit "vehicle", .gap, .lit "insurance", .gap]] },
    { name := "Term Insurance",
      keywords := ["term insurance", "term plan", "term life", "pure term", "aegon", "term cover"],
      pats := [[.gap, .lit "term", .gap, .lit "insurance", .gap],
      [.gap, .lit "term", .gap, .lit "plan", .gap]] },
    { name := "General Insurance",
      keywords := ["insurance premium", "policy premium", "renewal premium", "home insurance", "travel insurance", "accident insurance"],
      pats := [[.gap, .lit "insurance", .gap, .lit "premium", .gap],
      [.gap, .lit "policy", .gap, .lit "premium", .gap]] }] },
  { name := "Education", priority := 4, subcats := [
    { name := "School Fees",
      keywords := ["school", "school fee", "school fees", "tuition", "vidyalaya", "academy", "cbse", "icse", "state board", "primary school", "high school", "pre-school", "nursery", "kindergarten", "play school"],
      pats := [[.gap, .lit "school", .gap, .lit "fee", .gap],
      [.gap, .lit "school", .gap],
      [.gap, .lit "tuition", .gap]] },
    { name := "College & University",
      keywords := ["college", "university", "semester fee", "admission fee", "examination fee", "convocation", "degree", "graduation", "post graduation", "mba", "engineering", "medical college", "institute", "iit", "iim", "nit", "bits"],
      pats := [[.gap, .lit "college", .gap, .lit "fee", .gap],
      [.gap, .lit "university", .gap],
      [.gap, .lit "semester", .gap]] },
    { name := "Training & Courses",
      keywords := ["training", "course", "workshop", "seminar", "certification", "udemy", "coursera", "linkedin learning", "skillshare", "upgrad", "simplilearn", "great learning", "coding", "bootcamp", "coaching", "classes", "tutorial", "lesson"],
      pats := [[.gap, .lit "training", .gap],
      [.gap, .lit "course", .gap, .lit "fee", .gap],
      [.gap, .lit "workshop", .gap]] },
    { name := "Coaching & Tuition",
      keywords := ["coaching", "tuition", "byjus", "byju", "unacademy", "vedantu", "aakash", "allen", "fiitjee", "resonance", "physics wallah", "whitehat", "toppr", "extra class"],
      pats := [[.gap, .lit "coaching", .gap],
      [.gap, .lit "byjus", .gap],
      [.gap, .lit "unacademy", .gap]] },
    { name := "Books & Materials",
      keywords := ["book", "books", "textbook", "stationery", "notebook", "study material", "kindle", "amazon kindle", "audible"],
      pats := [[.gap, .lit "book", .gap],
      [.gap, .lit "stationery", .gap]] }] },
  { name := "Healthcare", priority := 5, subcats := [
    { name := "Hospital",
      keywords := ["hospital", "apollo", "fortis", "max hospital", "manipal", "narayana", "columbia asia", "medanta", "aiims", "medical center", "healthcare", "nursing home", "icu", "surgery", "operation", "treatment", "admission"],
      pats := [[.gap, .lit "hospital", .gap],
      [.gap, .lit "apollo", .gap],
      [.gap, .lit "fortis", .gap]] },
    { name := "Clinic & Doctor",
      keywords := ["clinic", "doctor", "physician", "consultation", "dr.", "specialist", "opd", "checkup", "check-up", "diagnosis", "practo", "docsapp", "lybrate", "portea"],
      pats := [[.gap, .lit "clinic", .gap],
      [.gap, .lit "doctor", .gap],
      [.gap, .bnd, .lit "dr.", .gap]] },
    { name := "Pharmacy",
      keywords := ["pharmacy", "medical", "medicine", "medplus", "apollo pharmacy", "netmeds", "1mg", "pharmeasy", "medlife", "chemist", "drug store", "prescription", "tablet", "capsule"],
      pats := [[.gap, .lit "pharmacy", .gap],
      [.gap, .lit "medplus", .gap],
      [.gap, .lit "netmeds", .gap],
      [.gap, .lit "1mg", .gap]] },
    { name := "Diagnostic & Labs",
      keywords := ["lab", "laboratory", "diagnostic", "test", "pathology", "thyrocare", "lal path", "srl", "metropolis", "blood test", "x-ray", "scan", "mri", "ct scan", "ultrasound", "ecg", "health checkup", "full body", "preventive"],
      pats := [[.gap, .lit "lab", .gap],
      [.gap, .lit "diagnostic", .gap],
      [.gap, .lit "thyrocare", .gap],
      [.gap, .lit "pathology", .gap]] },
    { name := "Dental",
      keywords := ["dental", "dentist", "tooth", "teeth", "orthodontist", "dental clinic", "clove dental", "mydentist", "sabka dentist"],
      pats := [[.gap, .lit "dental", .gap],
      [.gap, .lit "dentist", .gap]] },
    { name := "Wellness & Fitness",
      keywords := ["gym", "fitness", "yoga", "cult", "cult fit", "gold gym", "anytime fitness", "spa", "massage", "physiotherapy", "ayurveda", "wellness"],
      pats := [[.gap, .lit "gym", .gap],
      [.gap, .lit "fitness", .gap],
      [.gap, .lit "cult", .gap, .lit "fit", .gap]] }] },
  { name := "Money Transfer", priority := 6, subcats := [
    { name := "NEFT Transfer",
      keywords := ["neft"],
      pats := [[.gap, .lit "neft", .gap]] },
    { name := "IMPS Transfer",
      keywords := ["imps"],
      pats := [[.gap, .lit "imps", .gap]] },
    { name := "RTGS Transfer",
      keywords := ["rtgs"],
      pats := [[.gap, .lit "rtgs", .gap]] },
    { name := "Bank Transfer",
      keywords := ["fund transfer", "bank transfer", "online transfer", "net banking transfer"],
      pats := [[.gap, .lit "fund", .gap, .lit "transfer", .gap],
      [.gap, .lit "bank", .gap, .lit "transfer", .gap]] }] },
  { name := "Food & Dining", priority := 7, subcats := [
    { name := "Groceries",
      keywords := ["grocery", "supermarket", "dmart", "big basket", "bigbasket", "blinkit", "grofers", "jiomart", "amazon fresh", "nature basket", "more supermarket", "reliance fresh", "spencer", "star bazaar", "vegetables", "fruits", "provisions", "kirana", "general store", "departmental", "hypermarket", "spar"],
      pats := [[.gap, .lit "grocery", .gap],
      [.gap, .lit "supermarket", .gap],
      [.gap, .lit "dmart", .gap],
      [.gap, .lit "bigbasket", .gap]] },
    { name := "Food Delivery",
      keywords := ["swiggy", "zomato", "uber eats", "food panda", "dunzo", "faasos", "box8", "behrouz", "eatfit", "freshmenu"],
      pats := [[.gap, .lit "swiggy", .gap],
      [.gap, .lit "zomato", .gap]] },
    { name := "Restaurants",
      keywords := ["restaurant", "hotel", "cafe", "dhaba", "food court", "biryani", "chinese", "pizza", "burger", "dominos", "pizza hut", "mcdonalds", "kfc", "subway", "taco bell", "barbeque nation", "mainland china", "paradise", "dining"],
      pats := [[.gap, .lit "restaurant", .gap],
      [.gap, .lit "dominos", .gap],
      [.gap, .lit "pizza", .gap, .lit "hut", .gap]] },
    { name := "Cafe & Coffee",
      keywords := ["starbucks", "ccd", "cafe coffee day", "barista", "costa", "third wave", "blue tokai", "coffee", "tea", "chai"],
      pats := [[.gap, .lit "starbucks", .gap],
      [.gap, .lit "cafe", .gap, .lit "coffee", .gap, .lit "day", .gap],
      [.gap, .lit "coffee", .gap]] }] },
  { name := "Shopping", priority := 8, subcats := [
    { name := "Online Shopping",
      keywords := ["amazon", "flipkart", "myntra", "ajio", "meesho", "snapdeal", "tatacliq", "nykaa", "purplle", "mamaearth", "wow", "firstcry", "shopclues", "paytm mall", "pepperfry", "urban ladder"],
      pats := [[.gap, .lit "amazon", .nla "prime", .gap],
      [.gap, .lit "flipkart", .gap],
      [.gap, .lit "myntra", .gap]] },
    { name := "Electronics",
      keywords := ["croma", "reliance digital", "vijay sales", "mobile", "laptop", "computer", "electronic", "gadget", "samsung", "apple store", "mi store", "oneplus", "headphone", "earphone", "camera"],
      pats := [[.gap, .lit "croma", .gap],
      [.gap, .lit "reliance", .gap, .lit "digital", .gap],
      [.gap, .lit "electronic", .gap]] },
    { name := "Clothing & Fashion",
      keywords := ["max", "lifestyle", "pantaloons", "westside", "shoppers stop", "zara", "h&m", "levis", "wrangler", "peter england", "van heusen", "allen solly", "clothing", "garment", "apparel"],
      pats := [[.gap, .lit "lifestyle", .gap],
      [.gap, .lit "pantaloons", .gap],
      [.gap, .lit "shoppers", .gap, .lit "stop", .gap]] },
    { name := "Home & Furniture",
      keywords := ["ikea", "home centre", "hometown", "pepperfry", "urban ladder", "godrej interio", "nilkamal", "furniture", "home decor", "mattress", "bedsheet", "curtain"],
      pats := [[.gap, .lit "ikea", .gap],
      [.gap, .lit "pepperfry", .gap],
      [.gap, .lit "urban", .gap, .lit "ladder", .gap]] }] },
  { name := "Transportation", priority := 9, subcats := [
    { name := "Fuel",
      keywords := ["petrol", "diesel", "fuel", "hp", "bharat petroleum", "bpcl", "indian oil", "iocl", "shell", "reliance petrol", "petrol pump", "gas station", "filling station", "cng"],
      pats := [[.gap, .lit "petrol", .gap],
      [.gap, .lit "diesel", .gap],
      [.gap, .lit "fuel", .gap],
      [.gap, .bnd, .lit "hp", .bnd, .gap, .lit "petrol", .gap]] },
    { name := "Taxi & Rideshare",
      keywords := ["uber", "ola", "rapido", "taxi", "cab", "auto", "rickshaw", "meru", "fasttrack", "airport taxi"],
      pats := [[.gap, .lit "uber", .gap],
      [.gap, .bnd, .lit "ola", .bnd, .gap],
      [.gap, .lit "rapido", .gap],
      [.gap, .lit "taxi", .gap]] },
    { name := "Public Transport",
      keywords := ["metro", "bus", "train", "irctc", "railway", "bmtc", "best", "dtc", "ticket", "pass", "travel card"],
      pats := [[.gap, .lit "metro", .gap],
      [.gap, .lit "irctc", .gap],
      [.gap, .lit "railway", .gap]] },
    { name := "Parking & Toll",
      keywords := ["parking", "toll", "fastag", "nhai", "expressway", "highway"],
      pats := [[.gap, .lit "parking", .gap],
      [.gap, .lit "toll", .gap],
      [.gap, .lit "fastag", .gap]] },
    { name := "Travel & Booking",
      keywords := ["makemytrip", "goibibo", "cleartrip", "yatra", "redbus", "abhibus", "ixigo", "flight", "air india", "indigo", "spicejet", "vistara", "airasia"],
      pats := [[.gap, .lit "makemytrip", .gap],
      [.gap, .lit "goibibo", .gap],
      [.gap, .lit "flight", .gap]] }] },
  { name := "Utilities", priority := 10, subcats := [
    { name := "Electricity",
      keywords := ["electricity", "electric", "bescom", "bses", "tata power", "adani electricity", "reliance energy", "power bill", "eb bill", "mseb", "tneb", "wbsedcl"],
      pats := [[.gap, .lit "electricity", .gap],
      [.gap, .lit "bescom", .gap],
      [.gap, .lit "power", .gap, .lit "bill", .gap]] },
    { name := "Water",
      keywords := ["water", "bwssb", "water bill", "water supply", "municipal water"],
      pats := [[.gap, .lit "water", .gap, .lit "bill", .gap],
      [.gap, .lit "bwssb", .gap]] },
    { name := "Internet & Broadband",
      keywords := ["internet", "broadband", "wifi", "act fibernet", "jio fiber", "airtel xstream", "hathway", "tikona", "you broadband", "excitel", "tata sky broadband", "spectra"],
      pats := [[.gap, .lit "internet", .gap],
      [.gap, .lit "broadband", .gap],
      [.gap, .lit "wifi", .gap]] },
    { name := "Mobile & Phone",
      keywords := ["mobile", "phone", "airtel", "jio", "vodafone", "vi", "bsnl", "recharge", "prepaid", "postpaid", "mobile bill", "phone bill"],
      pats := [[.gap, .lit "mobile", .gap, .lit "bill", .gap],
      [.gap, .lit "phone", .gap, .lit "bill", .gap],
      [.gap, .lit "recharge", .gap]] },
    { name := "Gas & LPG",
      keywords := ["gas", "lpg", "indane", "bharat gas", "hp gas", "piped gas", "png", "igl", "mahanagar gas", "cooking gas", "cylinder"],
      pats := [[.gap, .bnd, .lit "lpg", .bnd, .gap],
      [.gap, .lit "gas", .gap, .lit "cylinder", .gap],
      [.gap, .lit "indane", .gap]] },
    { name := "DTH & Cable",
      keywords := ["dth", "tata sky", "dish tv", "airtel dth", "videocon d2h", "sun direct", "cable", "tv recharge"],
      pats := [[.gap, .lit "tata", .gap, .lit "sky", .gap],
      [.gap, .lit "dish", .gap, .lit "tv", .gap],
      [.gap, .bnd, .lit "dth", .bnd, .gap]] }] },
  { name := "Entertainment", priority := 11, subcats := [
    { name := "Streaming Services",
      keywords := ["netflix", "amazon prime", "hotstar", "disney", "sony liv", "zee5", "voot", "jio cinema", "mubi", "apple tv", "youtube premium", "spotify", "gaana", "wynk", "amazon music", "apple music"],
      pats := [[.gap, .lit "netflix", .gap],
      [.gap, .lit "hotstar", .gap],
      [.gap, .lit "prime", .gap, .lit "video", .gap],
      [.gap, .lit "spotify", .gap]] },
    { name := "Movies & Theatre",
      keywords := ["pvr", "inox", "cinepolis", "carnival", "bookmyshow", "paytm movies", "movie", "cinema", "multiplex", "theatre", "film"],
      pats := [[.gap, .lit "pvr", .gap],
      [.gap, .lit "inox", .gap],
      [.gap, .lit "bookmyshow", .gap],
      [.gap, .lit "movie", .gap]] },
    { name := "Gaming",
      keywords := ["playstation", "xbox", "steam", "epic games", "game", "gaming", "pubg", "valorant", "google play games"],
      pats := [[.gap, .lit "playstation", .gap],
      [.gap, .lit "xbox", .gap],
      [.gap, .lit "steam", .gap]] },
    { name := "Events & Activities",
      keywords := ["event", "concert", "show", "exhibition", "museum", "amusement park", "theme park", "wonderla", "imagica"],
      pats := [[.gap, .lit "concert", .gap],
      [.gap, .lit "event", .gap, .lit "ticket", .gap]] }] },
  { name := "Housing", priority := 12, subcats := [
    { name := "Rent",
      keywords := ["rent", "house rent", "flat rent", "room rent", "pg rent", "rental", "monthly rent", "landlord"],
      pats := [[.gap, .lit "rent", .gap],
      [.gap, .lit "landlord", .gap]] },
    { name := "Maintenance",
      keywords := ["maintenance", "society", "apartment", "flat maintenance", "building maintenance", "society fee", "maintenance charge"],
      pats := [[.gap, .lit "maintenance", .gap],
      [.gap, .lit "society", .gap, .lit "fee", .gap]] },
    { name := "Home Services",
      keywords := ["urban company", "urbanclap", "housejoy", "plumber", "electrician", "carpenter", "pest control", "cleaning", "deep cleaning", "ac service", "appliance repair"],
      pats := [[.gap, .lit "urban", .gap, .lit "company", .gap],
      [.gap, .lit "home", .gap, .lit "service", .gap]] }] },
  { name := "Other", priority := 99, subcats := [
    { name := "ATM Withdrawal",
      keywords := ["atm", "cash withdrawal", "atw", "atm/cash"],
      pats := [[.gap, .lit "atm", .gap],
      [.gap, .lit "cash", .gap, .lit "withdrawal", .gap]] },
    { name := "Bank Charges",
      keywords := ["bank charge", "service charge", "annual fee", "sms charge"],
      pats := [[.gap, .lit "bank", .gap, .lit "charge", .gap],
      [.gap, .lit "service", .gap, .lit "charge", .gap]] },
    { name := "Uncategorized",
      keywords := [],
      pats := [] }] }
]

/-- The hardcoded `KNOWN_MERCHANTS` quick-lookup table, in insertion order
(Python dicts preserve it and step 5 of `categorize` iterates it). -/
def knownMerchants : List (String × String × String) := [
  ("zerodha", "Investments", "Stocks & Trading"),
  ("groww", "Investments", "Stocks & Trading"),
  ("upstox", "Investments", "Stocks & Trading"),
  ("razorpay", "Investments", "Stocks & Trading"),
  ("razpbse", "Investments", "Stocks & Trading"),
  ("swiggy", "Food & Dining", "Food Delivery"),
  ("zomato", "Food & Dining", "Food Delivery"),
  ("bigbasket", "Food & Dining", "Groceries"),
  ("blinkit", "Food & Dining", "Groceries"),
  ("dmart", "Food & Dining", "Groceries"),
  ("amazon", "Shopping", "Online Shopping"),
  ("flipkart", "Shopping", "Online Shopping"),
  ("myntra", "Shopping", "Online Shopping"),
  ("netflix", "Entertainment", "Streaming Services"),
  ("hotstar", "Entertainment", "Streaming Services"),
  ("spotify", "Entertainment", "Streaming Services"),
  ("uber", "Transportation", "Taxi & Rideshare"),
  ("ola cabs", "Transportation", "Taxi & Rideshare"),
  ("rapido", "Transportation", "Taxi & Rideshare")
]

/-- `COMMON_INDIAN_FIRST_NAMES` (a Python set: only membership is used, so the
element order here is immaterial; listed sorted). -/
def commonIndianFirstNames : List String := [
  "ajay", "alok", "amit", "anil", "anita", "anjali",
  "ankit", "archana", "arun", "aruna", "asha", "ashish",
  "ashok", "bhavna", "birendra", "deepa", "deepak", "devendra",
  "devi", "dinesh", "divya", "ganesh", "gaurav", "geeta",
  "girish", "gita", "gopal", "harish", "hitesh", "jagdish",
  "jitendra", "jyoti", "kalpana", "kamala", "kavita", "kavitha",
  "kiran", "krishna", "kuldeep", "kumar", "lakshmi", "laksmi",
  "lalit", "lata", "mahendra", "mahesh", "mamta", "manish",
  "manoj", "maya", "meena", "mohan", "mohit", "mukesh",
  "narendra", "naresh", "neeraj", "neha", "nikhil", "nilesh",
  "nisha", "padma", "pallavi", "pankaj", "pooja", "prakash",
  "pramod", "prashant", "priya", "puja", "puneet", "radha",
  "rahul", "raj", "rajendra", "rajesh", "rakesh", "ramesh",
  "rani", "rashmi", "ravi", "ravindra", "rekha", "renuka",
  "ritu", "rohit", "sachin", "sandeep", "sangeeta", "sangita",
  "sanjay", "sarala", "sarita", "satish", "satya", "saurabh",
  "savita", "shalini", "shanti", "shobha", "shyam", "sita",
  "sneha", "sohan", "srinivas", "subhash", "suman", "sumit",
  "sunil", "sunita", "supriya", "surendra", "suresh", "swati",
  "uma", "umesh", "upendra", "usha", "vani", "varun",
  "vasudha", "venkat", "vidya", "vijay", "vikas", "vinod",
  "vivek", "yogendra"
]

/-- `BUSINESS_SUFFIXES` (a Python set: membership only; listed sorted). -/
def businessSuffixes : List String := [
  "academy", "agencies", "agency", "auto", "automobiles", "bank",
  "bazaar", "bazar", "builders", "cafe", "chemist", "clinic",
  "co", "college", "communications", "company", "constructions", "consultants",
  "consulting", "corp", "corporation", "diagnostic", "diagnostics", "druggist",
  "electric", "electricals", "electronics", "enterprise", "enterprises", "fabrics",
  "finance", "financial", "food", "foods", "global", "gold",
  "hospital", "hotel", "hypermarket", "inc", "india", "industries",
  "industry", "institute", "insurance", "international", "jewellers", "jewellery",
  "jewelry", "laboratories", "laboratory", "labs", "limited", "ltd",
  "mart", "medical", "medicals", "mobile", "mobiles", "motors",
  "national", "pharma", "pharmacy", "private", "properties", "pvt",
  "realty", "restaurant", "retail", "school", "service", "services",
  "shop", "silvers", "solutions", "store", "stores", "supermarket",
  "systems", "telecom", "textile", "textiles", "trade", "traders",
  "trading", "university", "wholesale"
]

/-! ## Classifier embedding (`RefinedCategorizer`) -/

/-- A learned mapping entry (the `learned_at` timestamp carries no
classification content and is dropped). -/
structure LMap where
  category : String
  subcategory : String
deriving Repr, DecidableEq

/-- `user_mappings`: the `exact_matches` and `keywords` dicts, in insertion
order.  (The file-level `patterns` dict exists but is never read.) -/
structure UserMappings where
  exact : List (String × LMap)
  kw : List (String × LMap)
deriving Repr, DecidableEq

/-- Classifier state: user mappings plus the merchant-database lookup
`{merchant_name: (category, subcategory)}` derived from
`merchant_database.json` (absent in the repository: empty at runtime). -/
structure CatState where
  um : UserMappings
  mdb : List (String × String × String)
deriving Repr

/-- The state the shipped repository runs with: no learned mappings (the
mappings file is absent, `_load_user_mappings` falls back to empty dicts) and
an empty merchant database. -/
def initState : CatState := ⟨⟨[], []⟩, []⟩

/-- A `ClassificationResult` dict. -/
structure RResult where
  category : String
  subcategory : String
  confidence : String
  reason : String
deriving Repr, DecidableEq

/-- Whether a single merchant-database name matches the description in
`_check_merchant_database`'s loop body: names of ≤ 2 chars are skipped, names
of ≤ 4 chars need a whole-word match, longer names plain substring. -/
def merchantHits (m : String) (descLower : String) : Bool :=
  if m.length ≤ 2 then false
  else if m.length ≤ 4 then wordBoundarySearch m descLower
  else strContains descLower m

/-- Stable insertion of an entry into a list kept in decreasing name length
(ties keep earlier elements first, matching Python's stable `sorted`). -/
def insertByLenDesc (x : String × String × String) :
    List (String × String × String) → List (String × String × String)
  | [] => [x]
  | y :: ys => if y.1.length > x.1.length then y :: insertByLenDesc x ys else x :: y :: ys

/-- `sorted(keys, key=len, reverse=True)` (stable) applied to the entries. -/
def sortByLenDesc (l : List (String × String × String)) : List (String × String × String) :=
  l.foldr insertByLenDesc []

/-- `_check_merchant_database`: longest-first scan of the merchant table.
(Python sorts the dict keys and indexes the dict; since dict keys are unique
this equals scanning the sorted entries themselves.) -/
def checkMerchantDatabase (mdb : List (String × String × String)) (description : String) :
    Option RResult :=
  let dl := pyLower description
  match (sortByLenDesc mdb).find? (fun e => merchantHits e.1 dl) with
  | some (m, cat, subcat) => some ⟨cat, subcat, "high", "Merchant database: " ++ m⟩
  | none => none

/-- `word.replace('mr','').replace('mrs','').replace('ms','').replace('dr','').strip()`
used by `_is_personal_name`'s first-name check. -/
def cleanWord (w : String) : String :=
  pyStrip (pyReplace (pyReplace (pyReplace (pyReplace w "mr" "") "mrs" "") "ms" "") "dr" "")

/-- `_is_personal_name`, parameterized by the merchant-database name list
(the module global `KNOWN_MERCHANT_NAMES`; empty in the shipped repository). -/
def isPersonalName (mdbNames : List String) (text : String) : Bool :=
  let tl := pyStrip (pyLower text)
  let words := pySplitWs tl
  if words.any (fun w => businessSuffixes.contains w) then false
  else if mdbNames.any (fun m => strContains tl m) then false
  else if knownMerchants.any (fun e => strContains tl e.1) then false
  else if words.any (fun w => commonIndianFirstNames.contains (cleanWord w)) then true
  else if words.length ≤ 3 && !words.any (fun w => businessSuffixes.contains w) then
    if !tl.data.any Char.isDigit then
      match words with
      | [w] => 3 ≤ w.length
      | [w1, w2] => 2 ≤ w1.length && 2 ≤ w2.length
      | _ => false
    else false
  else false

/-- The group of `re.search(r'\bTO\s+([A-Z][A-Z\s]+)$', ·)` when the match
starts right here: after "TO" comes at least one whitespace char, then a
char in `[A-Z]`, then at least one more char, all of them in `[A-Z\s]`,
running to the end of the string. -/
def toGroupAt (s : List Char) : Option (List Char) :=
  let wsRun := s.takeWhile Char.isWhitespace
  if wsRun.isEmpty then none
  else
    match s.drop wsRun.length with
    | [] => none
    | c :: rest =>
      if c.isUpper && 1 ≤ rest.length &&
          (c :: rest).all (fun d => d.isUpper || d.isWhitespace) then
        some (c :: rest)
      else none

/-- Leftmost search for the `\bTO\s+([A-Z][A-Z\s]+)$` pattern. -/
def toScan (prev : Option Char) (s : List Char) : Option (List Char) :=
  match (if bndOk prev s.head? && "TO".data.isPrefixOf s then toGroupAt (s.drop 2) else none) with
  | some g => some g
  | none =>
    match s with
    | [] => none
    | c :: cs => toScan (some c) cs

/-- `_extract_payee_name`. -/
def extractPayeeName (description : String) : Option String :=
  let du := pyUpper description
  match toScan none du.data with
  | some g => some (pyStrip (String.mk g))
  | none =>
    if strContains du "/" then
      match (pySplitOn du "/").reverse with
      | [] => none
      | lastPart :: _ =>
        let lp := pyStrip lastPart
        if !lp.isEmpty && !pyIsDigit lp && lp.length > 2 then some lp else none
    else none

/-- The `Income` subcategory list (`self.categories['Income']`). -/
def incomeSubcats : List SubcatDef :=
  match refinedCategories.find? (fun c => c.name == "Income") with
  | some c => c.subcats
  | none => []

/-- `_categorize_income`'s scan over the Income subcategories. -/
def incomeScan (desc : String) : List SubcatDef → Option RResult
  | [] => none
  | sc :: rest =>
    match sc.keywords.find? (fun k => strContains desc k) with
    | some k => some ⟨"Income", sc.name, "high", "Income keyword: " ++ k⟩
    | none =>
      if sc.pats.any (fun p => reSearch p desc) then
        some ⟨"Income", sc.name, "medium", "Income pattern match"⟩
      else incomeScan desc rest

/-- `_categorize_income`. -/
def categorizeIncome (desc : String) : RResult :=
  match incomeScan desc incomeSubcats with
  | some r => r
  | none => ⟨"Income", "Other Income", "low", "Default income category"⟩

/-- `_is_money_transfer`. -/
def isMoneyTransfer (st : CatState) (descLower : String) : Bool :=
  let hasTransferKw := ["neft", "imps", "rtgs", "fund transfer", "net banking"].any
    (fun k => strContains descLower k)
  if !hasTransferKw then false
  else if (checkMerchantDatabase st.mdb descLower).isSome then false
  else if knownMerchants.any (fun e => strContains descLower e.1) then false
  else true

/-- `_categorize_transfer`. -/
def categorizeTransfer (descLower : String) : RResult :=
  let subcat :=
    if strContains descLower "neft" then "NEFT Transfer"
    else if strContains descLower "imps" then "IMPS Transfer"
    else if strContains descLower "rtgs" then "RTGS Transfer"
    else "Bank Transfer"
  ⟨"Money Transfer", subcat, "high", "Identified as personal money transfer"⟩

/-- Inner subcategory scan of `_categorize_expense`: keywords of a
subcategory before its patterns, subcategories in declared order. -/
def subScan (desc cname : String) : List SubcatDef → Option RResult
  | [] => none
  | sc :: rest =>
    match sc.keywords.find? (fun k => strContains desc k) with
    | some k => some ⟨cname, sc.name, "high", "Keyword match: " ++ k⟩
    | none =>
      if sc.pats.any (fun p => reSearch p desc) then
        some ⟨cname, sc.name, "medium", "Pattern match"⟩
      else subScan desc cname rest

/-- Stable ascending insertion by priority (Python's stable `sorted`). -/
def insertByPrio (x : CatDef) : List CatDef → List CatDef
  | [] => [x]
  | y :: ys => if y.priority < x.priority then y :: insertByPrio x ys else x :: y :: ys

/-- `sorted(self.categories.items(), key=lambda x: x[1]['priority'])`. -/
def sortByPrio (l : List CatDef) : List CatDef :=
  l.foldr insertByPrio []

/-- Outer category scan of `_categorize_expense`, skipping
Income / Money Transfer / Other. -/
def expenseScan (desc : String) : List CatDef → Option RResult
  | [] => none
  | c :: rest =>
    if c.name == "Income" || c.name == "Money Transfer" || c.name == "Other" then
      expenseScan desc rest
    else
      match subScan desc c.name c.subcats with
      | some r => r
      | none => expenseScan desc rest

/-- `_categorize_expense` (its `amount` parameter is never read). -/
def categorizeExpense (desc : String) (_amount : Int) : RResult :=
  match expenseScan desc (sortByPrio refinedCategories) with
  | some r => r
  | none =>
    if strContains desc "atm" || strContains desc "cash withdrawal" then
      ⟨"Other", "ATM Withdrawal", "high", "ATM/Cash withdrawal detected"⟩
    else
      ⟨"Other", "Uncategorized", "low", "No category match found"⟩

/-- Steps 6–7 of `categorize` (transfer detection, then the expense scan). -/
def transferOrExpense (st : CatState) (descLower : String) (amount : Int) : RResult :=
  if isMoneyTransfer st descLower then categorizeTransfer descLower
  else categorizeExpense descLower amount

/-- Steps 4–7 of `categorize` (the negative-amount path after the learned
lookups). -/
def expensePath (st : CatState) (description descLower : String) (amount : Int) : RResult :=
  match checkMerchantDatabase st.mdb descLower with
  | some r => r
  | none =>
    match knownMerchants.find? (fun e => strContains descLower e.1) with
    | some (m, cat, subcat) => ⟨cat, subcat, "high", "Known merchant: " ++ m⟩
    | none =>
      match extractPayeeName description with
      | some payee =>
        if isPersonalName (st.mdb.map (fun e => e.1)) payee then categorizeTransfer descLower
        else transferOrExpense st descLower amount
      | none => transferOrExpense st descLower amount

/-- `RefinedCategorizer.categorize` on a (non-null) string description. -/
def categorize (st : CatState) (description : String) (amount : Int) : RResult :=
  let descLower := pyStrip (pyLower description)
  match alookup st.um.exact descLower with
  | some m => ⟨m.category, m.subcategory, "high", "User-defined exact match"⟩
  | none =>
    match st.um.kw.find? (fun kv => strContains descLower kv.1) with
    | some kv => ⟨kv.2.category, kv.2.subcategory, "high", "User-defined keyword: " ++ kv.1⟩
    | none =>
      if amount > 0 then categorizeIncome descLower
      else expensePath st description descLower amount

/-- The Python exception surfaced when `categorize` is handed `None`:
`None.lower()` raises `AttributeError` on its very first line. -/
inductive PyErr where
  | attributeError
deriving Repr, DecidableEq

/-- `categorize` on a possibly-null description: `None` raises, a string
never does. -/
def categorizeOpt (st : CatState) (description : Option String) (amount : Int) :
    Except PyErr RResult :=
  match description with
  | none => .error .attributeError
  | some d => .ok (categorize st d amount)

/-- `_save_user_mappings`: attempts the durable write and swallows every
exception (only printing a warning).  The returned flag records whether the
write actually succeeded; `learn` discards it. -/
def saveUserMappings (writeOk : Bool) : Bool := writeOk

/-- The keyword `learn` extracts: `max(words, key=len) if words else desc_lower`. -/
def extractKeyword (descLower : String) : String :=
  pyMaxByLen (pySplitWs descLower) descLower

/-- `RefinedCategorizer.learn` on string inputs, returning the updated
in-memory mappings and the boolean result.  `writeOk` says whether the
durable write inside `_save_user_mappings` succeeds; since that method
catches its own exceptions, `learn`'s `try` never fails on string inputs and
it returns `True` regardless. -/
def learn (um : UserMappings) (description category subcategory matchType : String)
    (writeOk : Bool) : UserMappings × Bool :=
  let descLower := pyStrip (pyLower description)
  let um' :=
    if matchType == "exact" then
      { um with exact := dictInsert um.exact descLower ⟨category, subcategory⟩ }
    else
      let k := extractKeyword descLower
      { um with kw := dictInsert um.kw k ⟨category, subcategory⟩ }
  let _persisted := saveUserMappings writeOk
  (um', true)

/-! ## Sanitizer embedding (`PIISanitizer`)

`sanitize_text` does not read or write the instance state that matters to its
output (`name_mapping` / `_get_name_placeholder` are never called by
`_sanitize_names`, and `stats` only counts), so it is embedded as a pure
function `String → SanitizationResult`. -/

/-- A PII finding dict `{type, original, masked}`. -/
structure Finding where
  ftype : String
  original : String
  masked : String
deriving Repr, DecidableEq

/-- The result triple of `sanitize_text`. -/
structure SanitizationResult where
  original : String
  sanitized : String
  piiFound : List Finding
deriving Repr, DecidableEq

/-- `MERCHANT_WHITELIST_LOWER` (a Python set: membership only; listed sorted). -/
def merchantWhitelistLower : List String := [
  "1mg", "abhibus", "adani gas", "airtel", "airtel mobile bill",
  "ajio", "amazon", "amazon prime", "angel broking", "apollo",
  "apollo pharmacy", "apple", "apple services", "atm withdrawal", "autopay",
  "axis bank", "bajaj allianz", "bescom", "big bazaar", "bigbasket",
  "blinkit", "bsnl", "burger king", "care health", "cash withdrawal",
  "cleartrip", "croma", "disney plus", "dmart", "dominos",
  "dunzo", "flipkart", "freecharge", "goibibo", "google",
  "google pay", "gpay", "grofers", "groww", "hdfc bank",
  "hdfc life", "hotstar", "icici bank", "icici prudential", "interest credit",
  "irctc", "jio", "kfc", "kotak", "liberty general insu",
  "liberty general insurance", "lic", "mahanagar gas", "makemytrip", "makemytrip india pvt",
  "mandate request", "mandaterequest", "max life", "mcdonalds", "medplus",
  "meesho", "mobikwik", "monthly autopay", "more", "myntra",
  "netflix", "netflix com", "netmeds", "nykaa", "ola",
  "payment from phone", "paytm", "pharmeasy", "phonepe", "pizza hut",
  "practo", "rapido", "redbus", "reliance", "reliance digital",
  "salary", "sbi", "sent using paytm", "snapdeal", "spar",
  "spencer", "spotify", "standing instruction", "star health", "subway",
  "swiggy", "tata aia", "tata power", "uber", "upstox",
  "vi", "vijay sales", "vodafone", "yatra", "youtube",
  "zepto", "zerodha", "zerodha broking ltd", "zomato"
]

/-- The per-word check inside `is_likely_personal_name`'s word loop: titles
are skipped; otherwise the word must have length 2–20 and be alphabetic once
`'.'` and `'-'` are removed (Python `''.isalpha()` is `False`, hence the
nonempty requirement). -/
def likelyNameWordOk (w : String) : Bool :=
  if ["MR", "MRS", "MS", "DR", "SHRI", "SMT", "KUMAR", "MAJ"].contains (pyUpper w) then true
  else
    (2 ≤ w.length && w.length ≤ 20) &&
      (let core := w.data.filter (fun c => !(c == '.' || c == '-'))
       !core.isEmpty && core.all Char.isAlpha)

/-- `is_likely_personal_name`.  The 70%-letters test
`len(letters_only) < len(text) * 0.7` is modeled as the exact rational
comparison `10 * letters < 7 * len`; the binary-float factor `0.7` differs
from `7/10` only below `5e-17`, which cannot flip the comparison at any of
the concrete inputs evaluated in this development (none sits on the
boundary). -/
def isLikelyPersonalName (text : String) : Bool :=
  if text.length < 3 then false
  else
    let t := pyStrip text
    let tl := pyLower t
    if merchantWhitelistLower.contains tl then false
    else if tl.length > 4 &&
        merchantWhitelistLower.any (fun m => strContains tl m || strContains m tl) then false
    else
      let lettersOnly := t.data.filter (fun c => c.isAlpha || c.isWhitespace)
      if 10 * lettersOnly.length < 7 * t.length then false
      else
        let words := pySplitWs t
        if !(1 ≤ words.length && words.length ≤ 4) then false
        else if words.any (fun w => !likelyNameWordOk w) then false
        else if pyIsUpper t.data && t.length ≤ 4 then false
        else true

/-- `' '.join(part.strip().split())`: collapse internal whitespace. -/
def normSpaces (s : String) : String :=
  " ".intercalate (pySplitWs s)

/-- `extract_name_from_upi`: the payee candidate is the second `-`-separated
part of a description starting with `UPI`. -/
def extractNameFromUpi (description : String) : Option String :=
  if !("UPI".data.isPrefixOf (pyUpper description).data) then none
  else
    match pySplitOn description "-" with
    | _ :: p1 :: _ =>
      let pn := normSpaces p1
      if isLikelyPersonalName pn then some pn else none
    | _ => none

/-- `re.match(r'^NEFT\s*(CR|DR)', s)`: anchored head test. -/
def neftHead (s : List Char) : Bool :=
  "NEFT".data.isPrefixOf s &&
    (let r := (s.drop 4).dropWhile Char.isWhitespace
     "CR".data.isPrefixOf r || "DR".data.isPrefixOf r)

/-- `extract_name_from_neft`: candidates at `-`-parts 2, 3, 4.  (Python
returns `None` for an empty list; the caller only truth-tests it, so the
empty list is the faithful image of that `None`.) -/
def extractNamesFromNeft (description : String) : List String :=
  if !neftHead (pyUpper description).data then []
  else
    let parts := pySplitOn description "-"
    ([2, 3, 4].filter (fun i => i < parts.length)).filterMap (fun i =>
      let pn := normSpaces (parts.getD i "")
      if isLikelyPersonalName pn then some pn else none)

/-- `extract_name_from_imps`: candidates at `-`-parts 1, 2, 3. -/
def extractNamesFromImps (description : String) : List String :=
  if !("IMPS".data.isPrefixOf (pyUpper description).data) then []
  else
    let parts := pySplitOn description "-"
    ([1, 2, 3].filter (fun i => i < parts.length)).filterMap (fun i =>
      let pn := normSpaces (parts.getD i "")
      if isLikelyPersonalName pn then some pn else none)

/-- `_sanitize_names`: UPI payee, then NEFT names, then IMPS names, each
replaced once in the running text. -/
def sanitizeNames (text : String) : String × List Finding :=
  let (r1, f1) :=
    match extractNameFromUpi text with
    | some n => (strReplaceFirst text n "[PAYEE]",
        [({ ftype := "personal_name", original := n, masked := "[PAYEE]" } : Finding)])
    | none => (text, [])
  let neftPh :=
    if strContains (takeN 20 (pyUpper text)) "CR" then "[ACCOUNT_HOLDER]" else "[RECIPIENT]"
  let step := fun ph (acc : String × List Finding) (n : String) =>
    (strReplaceFirst acc.1 n ph,
     acc.2 ++ [({ ftype := "personal_name", original := n, masked := ph } : Finding)])
  let (r2, f2) := (extractNamesFromNeft text).foldl (step neftPh) (r1, [])
  let (r3, f3) := (extractNamesFromImps text).foldl (step "[PARTY]") (r2, [])
  (r3, f1 ++ f2 ++ f3)

/-- Phone pattern 1, `\b([6-9]\d{9})\b`, matching at the current position. -/
def p1At (prev : Option Char) (s : List Char) : Bool :=
  bndOk prev s.head? &&
    (let t := s.take 10
     t.length == 10 && t.all Char.isDigit &&
       (match t.head? with
        | some c => ['6', '7', '8', '9'].contains c
        | none => false) &&
       bndOk t.getLast? ((s.drop 10).head?))

/-- All groups of `re.finditer(r'\b([6-9]\d{9})\b', ·)`, left to right,
non-overlapping.  Fuel: each step consumes at least one char. -/
def scanP1 : Nat → Option Char → List Char → List (List Char)
  | 0, _, _ => []
  | _ + 1, _, [] => []
  | f + 1, prev, c :: cs =>
    if p1At prev (c :: cs) then
      ((c :: cs).take 10) :: scanP1 f ((c :: cs).take 10).getLast? ((c :: cs).drop 10)
    else scanP1 f (some c) cs

/-- Phone pattern 2, `(\d{10})@[A-Za-z]+`: 10 digits, `@`, ≥ 1 letter.
Returns the group (the digits) and the full match length at this position. -/
def p2At (s : List Char) : Option (List Char × Nat) :=
  let t := s.take 10
  if t.length == 10 && t.all Char.isDigit then
    match s.drop 10 with
    | '@' :: rest =>
      let aRun := rest.takeWhile Char.isAlpha
      if aRun.isEmpty then none else some (t, 11 + aRun.length)
    | _ => none
  else none

/-- All groups of phone pattern 2. -/
def scanP2 : Nat → List Char → List (List Char)
  | 0, _ => []
  | _ + 1, [] => []
  | f + 1, c :: cs =>
    match p2At (c :: cs) with
    | some (g, len) => g :: scanP2 f ((c :: cs).drop len)
    | none => scanP2 f cs

/-- Phone pattern 3, `(\d{10})-\d+@[A-Za-z]+`. -/
def p3At (s : List Char) : Option (List Char × Nat) :=
  let t := s.take 10
  if t.length == 10 && t.all Char.isDigit then
    match s.drop 10 with
    | '-' :: rest =>
      let dRun := rest.takeWhile Char.isDigit
      if dRun.isEmpty then none
      else
        match rest.drop dRun.length with
        | '@' :: rest2 =>
          let aRun := rest2.takeWhile Char.isAlpha
          if aRun.isEmpty then none else some (t, 12 + dRun.length + aRun.length)
        | _ => none
    | _ => none
  else none

/-- All groups of phone pattern 3. -/
def scanP3 : Nat → List Char → List (List Char)
  | 0, _ => []
  | _ + 1, [] => []
  | f + 1, c :: cs =>
    match p3At (c :: cs) with
    | some (g, len) => g :: scanP3 f ((c :: cs).drop len)
    | none => scanP3 f cs

/-- `_mask_phone_number`. -/
def maskPhone (phone : String) : String :=
  if phone.length ≥ 10 then "XXXXX" ++ lastN 5 phone
  else if phone.length > 4 then "XXXXX" ++ lastN 4 phone
  else "XXXXX"

/-- Process one phone group exactly as the `finditer` loop body does. -/
def phoneStep (acc : String × List Finding) (g : List Char) : String × List Finding :=
  let phone := String.mk g
  if phone.length == 10 &&
      (match g.head? with
       | some c => ['6', '7', '8', '9'].contains c
       | none => false) then
    let m := maskPhone phone
    (strReplaceFirst acc.1 phone m,
     acc.2 ++ [({ ftype := "phone_number", original := phone, masked := m } : Finding)])
  else acc

/-- `_sanitize_phones`: for each pattern, the matches are taken from the text
as it stood when that pattern's `finditer` was created, while replacements
accumulate in the running result. -/
def sanitizePhones (text : String) : String × List Finding :=
  let (r1, f1) := (scanP1 (text.data.length + 1) none text.data).foldl phoneStep (text, [])
  let (r2, f2) := (scanP2 (r1.data.length + 1) r1.data).foldl phoneStep (r1, [])
  let (r3, f3) := (scanP3 (r2.data.length + 1) r2.data).foldl phoneStep (r2, [])
  (r3, f1 ++ f2 ++ f3)

/-- IFSC pattern `\b[A-Z]{4}0[A-Z0-9]{6}\b` matching at this position
(the whole 11-char token). -/
def ifscAt (prev : Option Char) (s : List Char) : Bool :=
  let t := s.take 11
  t.length == 11 && (t.take 4).all Char.isUpper && t.getD 4 ' ' == '0' &&
    ((t.drop 5).all fun c => c.isUpper || c.isDigit) &&
    bndOk prev s.head? && bndOk t.getLast? ((s.drop 11).head?)

/-- `re.findall(IFSC_PATTERN, ·)`. -/
def scanIfsc : Nat → Option Char → List Char → List (List Char)
  | 0, _, _ => []
  | _ + 1, _, [] => []
  | f + 1, prev, c :: cs =>
    if ifscAt prev (c :: cs) then
      ((c :: cs).take 11) :: scanIfsc f ((c :: cs).take 11).getLast? ((c :: cs).drop 11)
    else scanIfsc f (some c) cs

/-- Account pattern A, `\b([A-Z]{4}\d{11,17})\b`, at this position: four
uppercase letters, then a maximal digit run of length 11–17, then a word
boundary.  (Backtracking inside the digit run can never help: giving a digit
back puts a digit right after the group, killing the `\b`.) -/
def acctAAt (prev : Option Char) (s : List Char) : Option (List Char × Nat) :=
  let t := s.take 4
  if t.length == 4 && t.all Char.isUpper && bndOk prev s.head? then
    let dRun := (s.drop 4).takeWhile Char.isDigit
    if 11 ≤ dRun.length && dRun.length ≤ 17 &&
        bndOk dRun.getLast? ((s.drop (4 + dRun.length)).head?) then
      some (t ++ dRun, 4 + dRun.length)
    else none
  else none

/-- All groups of account pattern A. -/
def scanAcctA : Nat → Option Char → List Char → List (List Char)
  | 0, _, _ => []
  | _ + 1, _, [] => []
  | f + 1, prev, c :: cs =>
    match acctAAt prev (c :: cs) with
    | some (g, len) => g :: scanAcctA f g.getLast? ((c :: cs).drop len)
    | none => scanAcctA f (some c) cs

/-- Account pattern B, `\b(\d{12,18})\b`, at this position: a maximal digit
run of length 12–18 with boundaries on both sides (same backtracking
argument as pattern A). -/
def acctBAt (prev : Option Char) (s : List Char) : Option (List Char × Nat) :=
  if bndOk prev s.head? then
    let dRun := s.takeWhile Char.isDigit
    if 12 ≤ dRun.length && dRun.length ≤ 18 &&
        bndOk dRun.getLast? ((s.drop dRun.length).head?) then
      some (dRun, dRun.length)
    else none
  else none

/-- All groups of account pattern B. -/
def scanAcctB : Nat → Option Char → List Char → List (List Char)
  | 0, _, _ => []
  | _ + 1, _, [] => []
  | f + 1, prev, c :: cs =>
    match acctBAt prev (c :: cs) with
    | some (g, len) => g :: scanAcctB f g.getLast? ((c :: cs).drop len)
    | none => scanAcctB f (some c) cs

/-- Account pattern C, `A/C[-\s]*([A-Z0-9]{8,})`, at this position. -/
def acctCAt (s : List Char) : Option (List Char × Nat) :=
  if "A/C".data.isPrefixOf s then
    let sepRun := (s.drop 3).takeWhile (fun c => c == '-' || c.isWhitespace)
    let u := (s.drop (3 + sepRun.length)).takeWhile (fun c => c.isUpper || c.isDigit)
    if 8 ≤ u.length then some (u, 3 + sepRun.length + u.length) else none
  else none

/-- All groups of account pattern C. -/
def scanAcctC : Nat → List Char → List (List Char)
  | 0, _ => []
  | _ + 1, [] => []
  | f + 1, c :: cs =>
    match acctCAt (c :: cs) with
    | some (g, len) => g :: scanAcctC f ((c :: cs).drop len)
    | none => scanAcctC f cs

/-- `_mask_account_number`. -/
def maskAccount (account : String) : String :=
  if account.length > 4 then
    String.mk (List.replicate (account.length - 4) '*') ++ lastN 4 account
  else "****"

/-- Loop body shared by the three account patterns: skip IFSC codes and
groups shorter than 10 chars, else mask keeping the last 4. -/
def accountStep (ifscs : List String) (acc : String × List Finding) (g : List Char) :
    String × List Finding :=
  let account := String.mk g
  if ifscs.contains account then acc
  else if account.length < 10 then acc
  else
    let m := maskAccount account
    (strReplaceFirst acc.1 account m,
     acc.2 ++ [({ ftype := "account_number", original := account, masked := m } : Finding)])

/-- `_sanitize_account_numbers` (the IFSC exclusion set is computed from the
text this stage receives). -/
def sanitizeAccounts (text : String) : String × List Finding :=
  let ifscs := (scanIfsc (text.data.length + 1) none text.data).map String.mk
  let (r1, f1) :=
    (scanAcctA (text.data.length + 1) none text.data).foldl (accountStep ifscs) (text, [])
  let (r2, f2) :=
    (scanAcctB (r1.data.length + 1) none r1.data).foldl (accountStep ifscs) (r1, [])
  let (r3, f3) :=
    (scanAcctC (r2.data.length + 1) r2.data).foldl (accountStep ifscs) (r2, [])
  (r3, f1 ++ f2 ++ f3)

/-- UPI-id pattern `([A-Za-z0-9._-]+@[A-Za-z]+)` at this position: a maximal
run of handle chars, `@`, then a maximal nonempty letter run.  (The handle
class does not contain `@`, so backtracking cannot produce a different
match.) -/
def upiAt (s : List Char) : Option (List Char × Nat) :=
  let u := s.takeWhile (fun c => c.isAlphanum || c == '.' || c == '_' || c == '-')
  if u.isEmpty then none
  else
    match s.drop u.length with
    | '@' :: rest =>
      let aRun := rest.takeWhile Char.isAlpha
      if aRun.isEmpty then none
      else some (u ++ '@' :: aRun, u.length + 1 + aRun.length)
    | _ => none

/-- All matches of the UPI-id pattern. -/
def scanUpi : Nat → List Char → List (List Char)
  | 0, _ => []
  | _ + 1, [] => []
  | f + 1, c :: cs =>
    match upiAt (c :: cs) with
    | some (g, len) => g :: scanUpi f ((c :: cs).drop len)
    | none => scanUpi f cs

/-- The hardcoded merchant substrings skipped by `_sanitize_upi_ids`. -/
def upiMerchantSkips : List String :=
  ["swiggy", "zomato", "paytm", "amazon", "flipkart", "phonepe",
   "gpay", "netflix", "apple", "blinkit", "makemytrip"]

/-- Loop body of `_sanitize_upi_ids` for one matched UPI id. -/
def upiStep (acc : String × List Finding) (g : List Char) : String × List Finding :=
  let upiId := String.mk g
  if upiMerchantSkips.any (fun m => strContains (pyLower upiId) m) then acc
  else
    let username := String.mk (g.takeWhile (fun c => !(c == '@')))
    let bank := String.mk ((g.dropWhile (fun c => !(c == '@'))).drop 1)
    if (username.data.take 10).length == 10 && (username.data.take 10).all Char.isDigit then
      acc
    else
      let maskedUser :=
        if username.length > 4 then takeN 2 username ++ "***" ++ lastN 2 username
        else "***"
      let maskedId := maskedUser ++ "@" ++ bank
      (strReplaceFirst acc.1 upiId maskedId,
       acc.2 ++ [({ ftype := "upi_id", original := upiId, masked := maskedId } : Finding)])

/-- `_sanitize_upi_ids`. -/
def sanitizeUpiIds (text : String) : String × List Finding :=
  (scanUpi (text.data.length + 1) text.data).foldl upiStep (text, [])

/-- `PIISanitizer.sanitize_text` on a string input (`pd.isna` is false on
strings; the `not text` early return fires exactly on the empty string). -/
def sanitizeText (text : String) : SanitizationResult :=
  if text.isEmpty then ⟨text, text, []⟩
  else
    let s1 := sanitizeNames text
    let s2 := sanitizePhones s1.1
    let s3 := sanitizeAccounts s2.1
    let s4 := sanitizeUpiIds s3.1
    ⟨text, s4.1, s1.2 ++ s2.2 ++ s3.2 ++ s4.2⟩

/-! ## Helper lemmas -/

/-- `pyMaxByLenGo acc l` is `acc` or an element of `l`. -/
theorem pyMaxByLenGo_mem (l : List String) :
    ∀ acc, pyMaxByLenGo acc l = acc ∨ pyMaxByLenGo acc l ∈ l := by
  induction l with
  | nil => intro acc; left; rfl
  | cons x xs ih =>
    intro acc
    rcases ih (if x.length > acc.length then x else acc) with h | h
    · by_cases hx : x.length > acc.length
      · right
        rw [show pyMaxByLenGo acc (x :: xs) =
          pyMaxByLenGo (if x.length > acc.length then x else acc) xs from rfl, h, if_pos hx]
        exact List.mem_cons_self x xs
      · left
        rw [show pyMaxByLenGo acc (x :: xs) =
          pyMaxByLenGo (if x.length > acc.length then x else acc) xs from rfl, h, if_neg hx]
    · right
      exact List.mem_cons_of_mem x h

/-- `pyMaxByLenGo acc l` is at least as long as `acc` and every element of `l`. -/
theorem pyMaxByLenGo_ge (l : List String) :
    ∀ acc w, (w = acc ∨ w ∈ l) → w.length ≤ (pyMaxByLenGo acc l).length := by
  induction l with
  | nil =>
    intro acc w hw
    rcases hw with rfl | h
    · exact Nat.le_refl _
    · cases h
  | cons x xs ih =>
    intro acc w hw
    have step : pyMaxByLenGo acc (x :: xs) =
        pyMaxByLenGo (if x.length > acc.length then x else acc) xs := rfl
    rw [step]
    rcases hw with rfl | hx
    · refine Nat.le_trans ?_ (ih _ _ (Or.inl rfl))
      by_cases hgt : x.length > w.length
      · rw [if_pos hgt]; omega
      · rw [if_neg hgt]
    · rcases List.mem_cons.mp hx with rfl | hmem
      · refine Nat.le_trans ?_ (ih _ _ (Or.inl rfl))
        by_cases hgt : w.length > acc.length
        · rw [if_pos hgt]
        · rw [if_neg hgt]; omega
      · exact ih _ _ (Or.inr hmem)

/-- When the description has tokens, the learned keyword is one of them. -/
theorem extractKeyword_mem (d : String) (h : pySplitWs d ≠ []) :
    extractKeyword d ∈ pySplitWs d := by
  unfold extractKeyword pyMaxByLen
  cases hw : pySplitWs d with
  | nil => exact absurd hw h
  | cons w ws =>
    show pyMaxByLenGo w ws ∈ w :: ws
    rcases pyMaxByLenGo_mem ws w with h1 | h1
    · rw [h1]; exact List.mem_cons_self w ws
    · exact List.mem_cons_of_mem _ h1

/-- The learned keyword is a longest token. -/
theorem extractKeyword_longest (d : String) :
    ∀ w ∈ pySplitWs d, w.length ≤ (extractKeyword d).length := by
  unfold extractKeyword pyMaxByLen
  cases hsplit : pySplitWs d with
  | nil => intro w hw; cases hw
  | cons w0 ws =>
    intro w hw
    show w.length ≤ (pyMaxByLenGo w0 ws).length
    rcases List.mem_cons.mp hw with rfl | hmem
    · exact pyMaxByLenGo_ge ws w w (Or.inl rfl)
    · exact pyMaxByLenGo_ge ws w0 w (Or.inr hmem)

/-- Updating an existing key in place leaves it findable with the new value. -/
theorem alookup_update_of_any (l : List (String × LMap)) (k : String) (v : LMap)
    (h : l.any (fun kv => kv.1 == k) = true) :
    alookup (l.map (fun kv => if kv.1 == k then (k, v) else kv)) k = some v := by
  induction l with
  | nil => simp at h
  | cons kv t ih =>
    by_cases hk : (kv.1 == k) = true
    · unfold alookup
      rw [List.map_cons, if_pos hk, List.find?_cons_of_pos _ (by simp)]
      rfl
    · have ht : t.any (fun kv => kv.1 == k) = true := by
        simp only [List.any_cons, Bool.or_eq_true] at h
        rcases h with h | h
        · exact absurd h hk
        · exact h
      unfold alookup
      rw [List.map_cons, if_neg hk, List.find?_cons_of_neg _ (by simpa using hk)]
      exact ih ht

/-- Appending a fresh key makes it findable. -/
theorem alookup_append_of_not_any (l : List (String × LMap)) (k : String) (v : LMap)
    (h : l.any (fun kv => kv.1 == k) = false) :
    alookup (l ++ [(k, v)]) k = some v := by
  induction l with
  | nil =>
    unfold alookup
    rw [List.nil_append, List.find?_cons_of_pos _ (by simp)]
    rfl
  | cons kv t ih =>
    simp only [List.any_cons, Bool.or_eq_false_iff] at h
    unfold alookup
    rw [List.cons_append, List.find?_cons_of_neg _ (by simp [h.1])]
    exact ih h.2

/-- A Python dict assignment makes the key map to the assigned value. -/
theorem alookup_dictInsert (l : List (String × LMap)) (k : String) (v : LMap) :
    alookup (dictInsert l k v) k = some v := by
  unfold dictInsert
  by_cases hany : l.any (fun kv => kv.1 == k) = true
  · rw [if_pos hany]; exact alookup_update_of_any l k v hany
  · have hf : l.any (fun kv => kv.1 == k) = false := by
      cases hb : l.any (fun kv => kv.1 == k)
      · rfl
      · exact absurd hb hany
    rw [if_neg hany]
    exact alookup_append_of_not_any l k v hf

/-- Decreasing-name-length sortedness. -/
def lenSorted (l : List (String × String × String)) : Prop :=
  List.Pairwise (fun a b => b.1.length ≤ a.1.length) l

/-- Membership through `insertByLenDesc`. -/
theorem mem_insertByLenDesc {x y : String × String × String} {l} :
    y ∈ insertByLenDesc x l ↔ y = x ∨ y ∈ l := by
  induction l with
  | nil => simp [insertByLenDesc]
  | cons z t ih =>
    unfold insertByLenDesc
    by_cases h : z.1.length > x.1.length
    · rw [if_pos h]
      simp only [List.mem_cons, ih]
      tauto
    · rw [if_neg h]
      simp only [List.mem_cons]

/-- `insertByLenDesc` preserves sortedness. -/
theorem lenSorted_insert {x l} (h : lenSorted l) : lenSorted (insertByLenDesc x l) := by
  induction l with
  | nil => simp [insertByLenDesc, lenSorted]
  | cons z t ih =>
    rcases List.pairwise_cons.mp h with ⟨hz, ht⟩
    unfold insertByLenDesc
    by_cases hzx : z.1.length > x.1.length
    · rw [if_pos hzx]
      refine List.pairwise_cons.mpr ⟨?_, ih ht⟩
      intro y hy
      rcases mem_insertByLenDesc.mp hy with rfl | hy'
      · omega
      · exact hz y hy'
    · rw [if_neg hzx]
      refine List.pairwise_cons.mpr ⟨?_, h⟩
      intro y hy
      rcases List.mem_cons.mp hy with rfl | hy'
      · omega
      · have := hz y hy'; omega

/-- The sorted merchant list is sorted by decreasing name length. -/
theorem lenSorted_sortByLenDesc (l : List (String × String × String)) :
    lenSorted (sortByLenDesc l) := by
  unfold sortByLenDesc
  induction l with
  | nil => simp [lenSorted]
  | cons x t ih => exact lenSorted_insert ih

/-- Sorting permutes membership. -/
theorem mem_sortByLenDesc {y : String × String × String} {l} :
    y ∈ sortByLenDesc l ↔ y ∈ l := by
  unfold sortByLenDesc
  induction l with
  | nil => simp
  | cons x t ih =>
    simp only [List.foldr_cons, List.mem_cons, mem_insertByLenDesc, ih]

/-- In a length-sorted list, everything strictly longer than the first hit of
`find?` fails the predicate. -/
theorem find?_sorted_longer_fail {l : List (String × String × String)}
    {p : String × String × String → Bool} {e : String × String × String}
    (hs : lenSorted l) (hf : l.find? p = some e) :
    ∀ x ∈ l, e.1.length < x.1.length → p x = false := by
  induction l with
  | nil => cases hf
  | cons y t ih =>
    rcases List.pairwise_cons.mp hs with ⟨hy, ht⟩
    intro x hx hlen
    by_cases hpy : p y = true
    · rw [List.find?_cons_of_pos _ hpy] at hf
      injection hf with he
      subst he
      rcases List.mem_cons.mp hx with rfl | hx'
      · omega
      · have := hy x hx'; omega
    · rw [List.find?_cons_of_neg _ hpy] at hf
      rcases List.mem_cons.mp hx with rfl | hx'
      · cases hval : p x
        · rfl
        · exact absurd hval hpy
      · exact ih ht hf x hx' hlen

/-- A merchant-table hit needs a name of at least 3 chars. -/
theorem merchantHits_len {m d : String} (h : merchantHits m d = true) : 3 ≤ m.length := by
  unfold merchantHits at h
  by_cases h2 : m.length ≤ 2
  · rw [if_pos h2] at h; cases h
  · omega

/-- A merchant-table hit with a name of ≤ 4 chars is a whole-word match. -/
theorem merchantHits_boundary {m d : String} (h : merchantHits m d = true)
    (h4 : m.length ≤ 4) : wordBoundarySearch m d = true := by
  unfold merchantHits at h
  by_cases h2 : m.length ≤ 2
  · rw [if_pos h2] at h; cases h
  · rw [if_neg h2, if_pos h4] at h; exact h

/-- A merchant-table hit with a name longer than 4 chars is a substring match. -/
theorem merchantHits_substring {m d : String} (h : merchantHits m d = true)
    (h4 : 4 < m.length) : strContains d m = true := by
  unfold merchantHits at h
  by_cases h2 : m.length ≤ 2
  · rw [if_pos h2] at h; cases h
  · rw [if_neg h2, if_neg (by omega)] at h; exact h

/-! ## Claim theorems -/

/-- Claim C1, counterexample: the claim says `classify` never raises even on a
null description, but `categorize(None, -1)` raises `AttributeError` at
`None.lower()` instead of returning Other / Uncategorized / low. -/
theorem c1_null_description_cex :
    categorizeOpt initState none (-1) = Except.error PyErr.attributeError := rfl

/-- Claim C1, amended: for every string description (null excluded — a null
description raises `AttributeError`) and every amount, positive or not,
`classify` returns a `ClassificationResult` and never raises; for the empty
description with non-positive amount the result is Other / Uncategorized
with low confidence. -/
theorem c1_empty_description_amended :
    (∀ (d : String) (a : Int), (categorizeOpt initState (some d) a).isOk = true) ∧
    (∀ a : Int, a ≤ 0 →
      categorize initState "" a =
        ⟨"Other", "Uncategorized", "low", "No category match found"⟩) := by
  constructor
  · intro d a
    rfl
  · intro a h
    have key : categorize initState "" a =
        if a > 0 then categorizeIncome (pyStrip (pyLower ""))
        else expensePath initState "" (pyStrip (pyLower "")) a := rfl
    rw [key, if_neg (by omega : ¬ a > 0)]
    rfl

/-- Claim C1 witness: the amended theorem at description `"x"` with a
positive amount (income branch) and at the empty description with amount 0. -/
theorem c1_empty_description_witness :
    (categorizeOpt initState (some "x") 5).isOk = true ∧
    categorize initState "" 0 = ⟨"Other", "Uncategorized", "low", "No category match found"⟩ :=
  ⟨c1_empty_description_amended.1 "x" 5, c1_empty_description_amended.2 0 (by decide)⟩

/-- Claim C2: a learned exact-match entry for the normalized description, or
(failing that) the first learned keyword contained in it, decides the result
with high confidence before the income, merchant, transfer and rule paths;
in particular after `learn("some desc", "Education", "Books")` (default
keyword mode), `classify("some desc", -500)` returns Education / Books. -/
theorem c2_learned_override :
    (∀ (st : CatState) (d : String) (a : Int) (e : LMap),
      alookup st.um.exact (pyStrip (pyLower d)) = some e →
      categorize st d a = ⟨e.category, e.subcategory, "high", "User-defined exact match"⟩) ∧
    (∀ (st : CatState) (d : String) (a : Int) (kv : String × LMap),
      alookup st.um.exact (pyStrip (pyLower d)) = none →
      st.um.kw.find? (fun kv => strContains (pyStrip (pyLower d)) kv.1) = some kv →
      categorize st d a =
        ⟨kv.2.category, kv.2.subcategory, "high", "User-defined keyword: " ++ kv.1⟩) ∧
    categorize ⟨(learn ⟨[], []⟩ "some desc" "Education" "Books" "keyword" true).1, []⟩
        "some desc" (-500) =
      ⟨"Education", "Books", "high", "User-defined keyword: some"⟩ := by
  refine ⟨?_, ?_, by decide⟩
  · intro st d a e h
    simp only [categorize, h]
  · intro st d a kv h1 h2
    simp only [categorize, h1, h2]

/-- Claim C2 witness: the exact branch overrides a state whose learned entry
contradicts the rule tables, and the keyword branch fires on containment. -/
theorem c2_learned_override_witness :
    categorize ⟨⟨[("pay tuition", ⟨"Housing", "Rent"⟩)], []⟩, []⟩ "Pay Tuition" (-10) =
      ⟨"Housing", "Rent", "high", "User-defined exact match"⟩ ∧
    categorize ⟨⟨[], [("zzz", ⟨"Investments", "Stocks & Trading"⟩)]⟩, []⟩ "xzzzy" (-10) =
      ⟨"Investments", "Stocks & Trading", "high", "User-defined keyword: zzz"⟩ :=
  ⟨c2_learned_override.1 _ "Pay Tuition" (-10) ⟨"Housing", "Rent"⟩ (by decide),
   c2_learned_override.2.1 _ "xzzzy" (-10) ("zzz", ⟨"Investments", "Stocks & Trading"⟩)
     (by decide) (by decide)⟩

/-- Claim C8, counterexample: `learn(·, ·, ·, "keyword")` extracts
`max(words, key=len)` with no alphabetic filter, no 4-char minimum and no
stop-word removal: "pay 12345 now" stores under the numeric token "12345",
and "go to x" stores under the 2-char stop-word "go". -/
theorem c8_keyword_extraction_cex :
    (learn ⟨[], []⟩ "pay 12345 now" "Education" "Books" "keyword" true).1.kw =
      [("12345", ⟨"Education", "Books"⟩)] ∧
    "12345".data.all Char.isAlpha = false ∧
    (learn ⟨[], []⟩ "go to x" "Education" "Books" "keyword" true).1.kw =
      [("go", ⟨"Education", "Books"⟩)] ∧
    "go".length < 4 := by decide

/-- Claim C8, amended: keyword learning stores the mapping under the longest
whitespace-delimited token of the lowercased, trimmed description (first
token among ties; the whole normalized description when it has no tokens),
with no alphabetic, length or stop-word restriction; exact learning stores
under the normalized full description. -/
theorem c8_learn_keys_amended (um : UserMappings) (d c s : String) (wok : Bool) :
    (learn um d c s "exact" wok).1.exact =
      dictInsert um.exact (pyStrip (pyLower d)) ⟨c, s⟩ ∧
    (learn um d c s "keyword" wok).1.kw =
      dictInsert um.kw (extractKeyword (pyStrip (pyLower d))) ⟨c, s⟩ ∧
    (pySplitWs (pyStrip (pyLower d)) ≠ [] →
      extractKeyword (pyStrip (pyLower d)) ∈ pySplitWs (pyStrip (pyLower d)) ∧
      ∀ w ∈ pySplitWs (pyStrip (pyLower d)),
        w.length ≤ (extractKeyword (pyStrip (pyLower d))).length) ∧
    (pySplitWs (pyStrip (pyLower d)) = [] →
      extractKeyword (pyStrip (pyLower d)) = pyStrip (pyLower d)) := by
  refine ⟨rfl, rfl, fun h => ⟨extractKeyword_mem _ h, extractKeyword_longest _⟩, fun h => ?_⟩
  unfold extractKeyword pyMaxByLen
  rw [h]

/-- Claim C8 witness: the amended theorem at `"pay school fee"`, whose
extracted keyword is its longest token. -/
theorem c8_learn_keys_witness :
    extractKeyword (pyStrip (pyLower "pay school fee")) ∈
      pySplitWs (pyStrip (pyLower "pay school fee")) ∧
    ∀ w ∈ pySplitWs (pyStrip (pyLower "pay school fee")),
      w.length ≤ (extractKeyword (pyStrip (pyLower "pay school fee"))).length :=
  (c8_learn_keys_amended ⟨[], []⟩ "pay school fee" "Education" "School Fees" true).2.2.1
    (by decide)

/-- Claim C9, counterexample: when the durable write fails
(`writeOk = false`), `learn` still returns `True` — not the boolean failure
the claim requires — because `_save_user_mappings` swallows its own
exceptions; the in-memory mapping does retain the new entry. -/
theorem c9_persistence_cex :
    (learn ⟨[], []⟩ "monthly groceries" "Food & Dining" "Groceries" "keyword" false).2 = true ∧
    (learn ⟨[], []⟩ "monthly groceries" "Food & Dining" "Groceries" "keyword" false).1.kw =
      [("groceries", ⟨"Food & Dining", "Groceries"⟩)] := by decide

/-- Claim C9, amended: on string inputs `learn` returns `True` whether or not
the durable write succeeds (persistence errors are caught and only logged
inside `_save_user_mappings`, never reported to the caller), and the
in-memory mapping contains the newly learned entry in both modes. -/
theorem c9_learn_result_amended (um : UserMappings) (d c s mt : String) (wok : Bool) :
    (learn um d c s mt wok).2 = true ∧
    alookup (learn um d c s "exact" wok).1.exact (pyStrip (pyLower d)) = some ⟨c, s⟩ ∧
    alookup (learn um d c s "keyword" wok).1.kw
      (extractKeyword (pyStrip (pyLower d))) = some ⟨c, s⟩ := by
  refine ⟨rfl, ?_, ?_⟩
  · exact alookup_dictInsert um.exact (pyStrip (pyLower d)) ⟨c, s⟩
  · exact alookup_dictInsert um.kw (extractKeyword (pyStrip (pyLower d))) ⟨c, s⟩

/-- Claim C10: the failing input of the merchant-short-name-safety property.
`classify("RAVI KUMAR TRANSFER", -100)` is decided by the 2-character
Utilities keyword "vi" matched as a plain substring inside "RAVI" — exactly
the false positive that `_check_merchant_database`'s own docstring says the
system avoids ("RAVI KUMAR" matching "vi" (telecom)).  The word-boundary
guard exists only in the merchant lookup, not in the keyword rule scan. -/
theorem c10_short_keyword_code_bug :
    categorize initState "RAVI KUMAR TRANSFER" (-100) =
      ⟨"Utilities", "Mobile & Phone", "high", "Keyword match: vi"⟩ ∧
    strContains "ravi kumar transfer" "vi" = true ∧
    wordBoundarySearch "vi" "ravi kumar transfer" = false := by decide

/-- Claim C3, counterexample: masking is not idempotent.  Sanitizing
"abcdef@x" masks the UPI id to "ab***ef@x"; sanitizing that output again
re-masks the residual "ef@x", producing a new `upi_id` finding and changing
the token to "ab******@x". -/
theorem c3_idempotence_cex :
    (sanitizeText "abcdef@x").sanitized = "ab***ef@x" ∧
    sanitizeText "ab***ef@x" =
      ⟨"ab***ef@x", "ab******@x", [⟨"upi_id", "ef@x", "***@x"⟩]⟩ := by decide

/-- Claim C3, amended: re-sanitizing already-masked text never raises
(`sanitize_text` is total on strings and echoes its input as `original`),
but it is not idempotent: a masked payment-identifier token can be re-masked
with a fresh `upi_id` finding, as on "abcdef@x" → "ab***ef@x" →
"ab******@x"; a third application leaves that example unchanged with no
findings. -/
theorem c3_idempotence_amended :
    (∀ t : String, (sanitizeText t).original = t) ∧
    (sanitizeText "abcdef@x").sanitized = "ab***ef@x" ∧
    sanitizeText "ab***ef@x" =
      ⟨"ab***ef@x", "ab******@x", [⟨"upi_id", "ef@x", "***@x"⟩]⟩ ∧
    sanitizeText "ab******@x" = ⟨"ab******@x", "ab******@x", []⟩ := by
  refine ⟨?_, by decide, by decide, by decide⟩
  intro t
  unfold sanitizeText
  split <;> rfl

/-- Claim C4, counterexample: the secondary hot-merchant table does not obey
the directory's matching rule.  The 4-char merchant "uber" matches inside
"tuberose" as a plain substring with no word boundary, deciding the
classification — under the claimed rule a ≤ 4-char name may match only as a
whole word. -/
theorem c4_matching_rule_cex :
    categorize initState "tuberose" (-1) =
      ⟨"Transportation", "Taxi & Rideshare", "high", "Known merchant: uber"⟩ ∧
    "uber".length ≤ 4 ∧
    wordBoundarySearch "uber" "tuberose" = false := by decide

/-- Claim C4, amended: the Merchant Directory lookup
(`_check_merchant_database`) tries merchants longest-first, never matches a
name of ≤ 2 chars, requires a whole-word match for names of ≤ 4 chars and a
substring match for longer names, and returns the matching merchant's
category/subcategory with high confidence; the secondary hardcoded
hot-merchant table instead scans in table order and matches by plain
substring containment with no length threshold or word-boundary rule. -/
theorem c4_matching_rule_amended :
    (∀ (tbl : List (String × String × String)) (d : String) (r : RResult),
      checkMerchantDatabase tbl d = some r →
      ∃ e, e ∈ tbl ∧
        r = ⟨e.2.1, e.2.2, "high", "Merchant database: " ++ e.1⟩ ∧
        3 ≤ e.1.length ∧
        (e.1.length ≤ 4 → wordBoundarySearch e.1 (pyLower d) = true) ∧
        (4 < e.1.length → strContains (pyLower d) e.1 = true) ∧
        (∀ x ∈ tbl, e.1.length < x.1.length → merchantHits x.1 (pyLower d) = false)) ∧
    (∀ (d : String) (e : String × String × String),
      knownMerchants.find? (fun kv => strContains d kv.1) = some e →
      e ∈ knownMerchants ∧ strContains d e.1 = true) := by
  constructor
  · intro tbl d r h
    simp only [checkMerchantDatabase] at h
    cases hf : (sortByLenDesc tbl).find? (fun e => merchantHits e.1 (pyLower d)) with
    | none => rw [hf] at h; cases h
    | some e =>
      rw [hf] at h
      obtain ⟨m, c, s⟩ := e
      have hr : r = ⟨c, s, "high", "Merchant database: " ++ m⟩ := by
        injection h with h'
        exact h'.symm
      have hp : merchantHits m (pyLower d) = true := by
        have := List.find?_some hf
        simpa using this
      have hmem : (m, c, s) ∈ tbl := mem_sortByLenDesc.mp (List.mem_of_find?_eq_some hf)
      refine ⟨(m, c, s), hmem, hr, merchantHits_len hp,
        fun h4 => merchantHits_boundary hp h4,
        fun h4 => merchantHits_substring hp h4, ?_⟩
      intro x hx hlen
      have := find?_sorted_longer_fail (lenSorted_sortByLenDesc tbl) hf x
        (mem_sortByLenDesc.mpr hx) hlen
      simpa using this
  · intro d e h
    exact ⟨List.mem_of_find?_eq_some h, by simpa using List.find?_some h⟩

/-- Claim C4 witness: the directory-lookup half of the amended theorem at a
one-entry table hit by a substring match. -/
theorem c4_matching_rule_witness :
    ∃ e, e ∈ [("abcde", "Shopping", "Electronics")] ∧
      (⟨"Shopping", "Electronics", "high", "Merchant database: abcde"⟩ : RResult) =
        ⟨e.2.1, e.2.2, "high", "Merchant database: " ++ e.1⟩ ∧
      3 ≤ e.1.length ∧
      (e.1.length ≤ 4 → wordBoundarySearch e.1 (pyLower "xxabcdexx") = true) ∧
      (4 < e.1.length → strContains (pyLower "xxabcdexx") e.1 = true) ∧
      (∀ x ∈ [("abcde", "Shopping", "Electronics")], e.1.length < x.1.length →
        merchantHits x.1 (pyLower "xxabcdexx") = false) :=
  c4_matching_rule_amended.1 [("abcde", "Shopping", "Electronics")] "xxabcdexx"
    ⟨"Shopping", "Electronics", "high", "Merchant database: abcde"⟩ (by decide)

/-- Claim C5, counterexample: the classifier's `_is_personal_name` and the
sanitizer's `is_likely_personal_name` do not have identical semantics — they
disagree on "hospital" (with the repository's empty merchant table). -/
theorem c5_detectors_cex :
    isPersonalName [] "hospital" ≠ isLikelyPersonalName "hospital" := by decide

/-- Claim C5, amended: the two personal-name detectors are separate
heuristics with different semantics.  They disagree on business-suffix words
("hospital": classifier rejects, sanitizer accepts) and on three-token
sequences ("foo bar baz": classifier's fallback rejects, sanitizer accepts),
while agreeing on gazetteer names such as "lakshmi". -/
theorem c5_detectors_amended :
    isPersonalName [] "hospital" = false ∧
    isLikelyPersonalName "hospital" = true ∧
    isPersonalName [] "foo bar baz" = false ∧
    isLikelyPersonalName "foo bar baz" = true ∧
    isPersonalName [] "lakshmi" = true ∧
    isLikelyPersonalName "lakshmi" = true := by decide

/-- Claim C6, counterexample: "foo bar baz" satisfies every precondition of
the claim (no business-suffix token, no merchant substring, no gazetteer
token, 3 tokens, no digits, token lengths in [2,20]), so the claim demands
acceptance — but `_is_personal_name`'s fallback accepts only 1- or 2-token
sequences and rejects it. -/
theorem c6_fallback_cex :
    ((pySplitWs (pyStrip (pyLower "foo bar baz"))).all
      (fun w => !businessSuffixes.contains w)) = true ∧
    (knownMerchants.all
      (fun e => !strContains (pyStrip (pyLower "foo bar baz")) e.1)) = true ∧
    ((pySplitWs (pyStrip (pyLower "foo bar baz"))).all
      (fun w => !commonIndianFirstNames.contains (cleanWord w))) = true ∧
    (pySplitWs (pyStrip (pyLower "foo bar baz"))).length = 3 ∧
    ((pyStrip (pyLower "foo bar baz")).data.any Char.isDigit) = false ∧
    ((pySplitWs (pyStrip (pyLower "foo bar baz"))).all
      (fun w => 2 ≤ w.length && w.length ≤ 20)) = true ∧
    isPersonalName [] "foo bar baz" = false := by decide

/-- Claim C6, amended: outside the business-suffix, merchant and gazetteer
paths, `_is_personal_name` accepts exactly the digit-free sequences with a
single token of length ≥ 3 or exactly two tokens each of length ≥ 2 — never
three tokens, and with no 20-char upper bound. -/
theorem c6_fallback_amended (mdbNames : List String) (text : String)
    (hsuf : ∀ w ∈ pySplitWs (pyStrip (pyLower text)), businessSuffixes.contains w = false)
    (hdb : ∀ m ∈ mdbNames, strContains (pyStrip (pyLower text)) m = false)
    (hkm : ∀ e ∈ knownMerchants, strContains (pyStrip (pyLower text)) e.1 = false)
    (hgaz : ∀ w ∈ pySplitWs (pyStrip (pyLower text)),
      commonIndianFirstNames.contains (cleanWord w) = false) :
    isPersonalName mdbNames text = true ↔
      ((pyStrip (pyLower text)).data.any Char.isDigit = false ∧
        match pySplitWs (pyStrip (pyLower text)) with
        | [w] => 3 ≤ w.length
        | [w1, w2] => 2 ≤ w1.length ∧ 2 ≤ w2.length
        | _ => False) := by
  have h1 : (pySplitWs (pyStrip (pyLower text))).any
      (fun w => businessSuffixes.contains w) = false := by
    rw [List.any_eq_false]
    intro x hx
    show ¬ businessSuffixes.contains x = true
    rw [hsuf x hx]
    exact Bool.false_ne_true
  have h2 : mdbNames.any (fun m => strContains (pyStrip (pyLower text)) m) = false := by
    rw [List.any_eq_false]
    intro x hx
    simp [hdb x hx]
  have h3 : knownMerchants.any
      (fun e => strContains (pyStrip (pyLower text)) e.1) = false := by
    rw [List.any_eq_false]
    intro x hx
    simp [hkm x hx]
  have h4 : (pySplitWs (pyStrip (pyLower text))).any
      (fun w => commonIndianFirstNames.contains (cleanWord w)) = false := by
    rw [List.any_eq_false]
    intro x hx
    show ¬ commonIndianFirstNames.contains (cleanWord x) = true
    rw [hgaz x hx]
    exact Bool.false_ne_true
  simp only [isPersonalName, h1, h2, h3, h4, Bool.false_eq_true, if_false,
    Bool.not_false, Bool.and_true]
  generalize (pyStrip (pyLower text)).data.any Char.isDigit = dg
  generalize pySplitWs (pyStrip (pyLower text)) = ws
  rcases ws with _ | ⟨w1, _ | ⟨w2, _ | ⟨w3, rest⟩⟩⟩ <;> cases dg <;>
    simp [decide_eq_true_eq, Nat.succ_le_succ_iff]

/-- Claim C6 witness: the amended characterization at "meghnad bose" (two
tokens, no business suffix, no merchant substring, no gazetteer hit), which
the fallback accepts. -/
theorem c6_fallback_witness : isPersonalName [] "meghnad bose" = true :=
  (c6_fallback_amended [] "meghnad bose" (by decide) (by decide) (by decide)
    (by decide)).mpr ⟨by decide, by exact ⟨by decide, by decide⟩⟩

/-- Claim C7: sanitizing the reference narration masks the payee name to the
[PAYEE] placeholder, masks the phone 9902770108 to the partial mask
XXXXX70108 keeping only trailing digits (the UPI-id stage then further masks
the phone-bearing handle to -X***08@YBL, still exposing only trailing
digits), masks the reference number 460665356321 keeping its last 4 chars,
and leaves "PAYMENT FROM PHONE" and the routing token SBIN0017785 intact. -/
theorem c7_upi_example :
    sanitizeText
        "UPI-DHIRENDRA KUMAR MAJ-9902770108@YBL-SBIN0017785-460665356321-PAYMENT FROM PHONE" =
      ⟨"UPI-DHIRENDRA KUMAR MAJ-9902770108@YBL-SBIN0017785-460665356321-PAYMENT FROM PHONE",
       "UPI-[PAYEE]-X***08@YBL-SBIN0017785-********6321-PAYMENT FROM PHONE",
       [⟨"personal_name", "DHIRENDRA KUMAR MAJ", "[PAYEE]"⟩,
        ⟨"phone_number", "9902770108", "XXXXX70108"⟩,
        ⟨"account_number", "460665356321", "********6321"⟩,
        ⟨"upi_id", "-XXXXX70108@YBL", "-X***08@YBL"⟩]⟩ ∧
    strContains "UPI-[PAYEE]-X***08@YBL-SBIN0017785-********6321-PAYMENT FROM PHONE"
      "[PAYEE]" = true ∧
    strContains "UPI-[PAYEE]-X***08@YBL-SBIN0017785-********6321-PAYMENT FROM PHONE"
      "PAYMENT FROM PHONE" = true ∧
    strContains "UPI-[PAYEE]-X***08@YBL-SBIN0017785-********6321-PAYMENT FROM PHONE"
      "SBIN0017785" = true ∧
    strContains "UPI-[PAYEE]-X***08@YBL-SBIN0017785-********6321-PAYMENT FROM PHONE"
      "********6321" = true ∧
    strContains "UPI-[PAYEE]-X***08@YBL-SBIN0017785-********6321-PAYMENT FROM PHONE"
      "DHIRENDRA" = false ∧
    strContains "UPI-[PAYEE]-X***08@YBL-SBIN0017785-********6321-PAYMENT FROM PHONE"
      "9902770108" = false ∧
    strContains "UPI-[PAYEE]-X***08@YBL-SBIN0017785-********6321-PAYMENT FROM PHONE"
      "460665356321" = false := by decide
